import Mathlib

/-!
Verification of the webnav repository (a Selenium-driven, LLM-guided web
navigator) against its natural-language specification.

The development shallowly embeds the Python sources:
  - app/navigator.py   : WebNavigator.handle_prompt (the control loop),
                         _validate_action, _is_task_complete, perform_action
  - app/llm_interface.py : LLMInterface._parse_response, _validate_response,
                         _send_to_llm, decide_next_action

Python values that flow through the code (JSON-decoded model output,
action dictionaries) are embedded as the inductive type PyVal; Python
dicts are association lists keyed by strings, with first-match lookup and
append-at-end insertion, matching CPython dict semantics for the
operations the code performs.  Raised Python exceptions are embedded as
the error branch of Except.  External effects (the HTTP transport, the
Selenium driver) are environment parameters: the loop consumes a script
of per-iteration model responses and per-action execution outcomes.
-/

/-- Embedded Python/JSON value. -/
inductive PyVal where
  | null
  | bool (b : Bool)
  | int (n : Int)
  | str (s : String)
  | list (xs : List PyVal)
  | dict (d : List (String × PyVal))
deriving Repr

/-- First-match association-list lookup, as Python dict.get(key). -/
def dgetOpt : List (String × PyVal) → String → Option PyVal
  | [], _ => Option.none
  | (k, v) :: rest, key => if k = key then Option.some v else dgetOpt rest key

/-- Python `key in d` for a dict. -/
def dcontains (d : List (String × PyVal)) (key : String) : Bool :=
  (dgetOpt d key).isSome

/-- Python d.get(key, default). -/
def dgetD (d : List (String × PyVal)) (key : String) (dflt : PyVal) : PyVal :=
  (dgetOpt d key).getD dflt

/-- The underlying dict of a PyVal, empty for non-dicts (used only where the
source has already established the value is a dict). -/
def pyAsDict : PyVal → List (String × PyVal)
  | .dict d => d
  | _ => []

/-- Python equality test of a value against a string literal: true exactly
when the value is that string (non-strings compare unequal to strings). -/
def pyEqStr (v : PyVal) (s : String) : Bool :=
  match v with
  | .str t => t = s
  | _ => false

/-- Python truthiness. -/
def pyTruthy : PyVal → Bool
  | .null => false
  | .bool b => b
  | .int n => n ≠ 0
  | .str s => s ≠ ""
  | .list xs => !xs.isEmpty
  | .dict d => !d.isEmpty

/-- The five action kinds recognized by WebNavigator._validate_action
(navigator.py line 240). -/
def recognizedActions : List String :=
  ["navigate", "click", "type", "wait", "extract"]

/-- The selector strategies recognized by WebNavigator._validate_action
(navigator.py line 253). -/
def recognizedStrategies : List String :=
  ["id", "name", "css", "xpath", "link_text", "partial_link_text",
   "class_name", "tag_name"]

/-- Auxiliary scan for substring containment over character lists. -/
def containsAux (needle : List Char) : List Char → Bool
  | [] => needle.isEmpty
  | c :: rest => needle.isPrefixOf (c :: rest) || containsAux needle rest

/-- Python substring containment, `needle in hay` for strings. -/
def strContains (hay needle : String) : Bool :=
  containsAux needle.toList hay.toList

/-- WebNavigator._validate_action (navigator.py lines 233-261), embedded as
Except Unit Bool: `.ok b` is a normal return of b, `.error ()` is a raised
exception (Python `in` on a non-container raises TypeError, and `.get` on a
non-dict raises AttributeError; neither path is reachable from the parser,
which only yields dicts, but both are embedded faithfully).
Checks in source order: required keys; recognized kind; target a string or
a strategy/value dict with a recognized strategy; `type` requires value. -/
def validateActionE (action : PyVal) : Except Unit Bool :=
  match action with
  | .dict d =>
    if !(dcontains d "action" && dcontains d "target") then .ok false
    else if !(recognizedActions.any fun s => pyEqStr (dgetD d "action" .null) s) then
      .ok false
    else
      match dgetD d "target" .null with
      | .str _ =>
        if pyEqStr (dgetD d "action" .null) "type" && !dcontains d "value" then
          .ok false
        else .ok true
      | .dict t =>
        if !(dcontains t "strategy" && dcontains t "value") then .ok false
        else if !(recognizedStrategies.any fun s =>
            pyEqStr (dgetD t "strategy" .null) s) then .ok false
        else if pyEqStr (dgetD d "action" .null) "type" && !dcontains d "value" then
          .ok false
        else .ok true
      | _ => .ok false
  | .str s =>
    -- `"action" in s` / `"target" in s` are substring tests; when both hold
    -- the subsequent s.get("action") raises AttributeError
    if strContains s "action" && strContains s "target" then .error ()
    else .ok false
  | .list xs =>
    -- `"action" in xs` is membership; a list has no .get, so passing the
    -- required-keys check would raise AttributeError
    if xs.any (fun v => pyEqStr v "action") && xs.any (fun v => pyEqStr v "target") then
      .error ()
    else .ok false
  | _ => .error ()

/-- LLMInterface._validate_response (llm_interface.py lines 354-370):
requires a dict with action and target keys, a recognized kind, and a value
key when the kind is type. -/
def validate_response (response : PyVal) : Bool :=
  match response with
  | .dict d =>
    if !(dcontains d "action" && dcontains d "target") then false
    else if !(recognizedActions.any fun s => pyEqStr (dgetD d "action" .null) s) then
      false
    else if pyEqStr (dgetD d "action" .null) "type" && !dcontains d "value" then
      false
    else true
  | _ => false

/-- WebNavigator._is_task_complete (navigator.py lines 224-231): the truth
value of action.get("task_complete", False). -/
def is_task_complete (action : PyVal) : Bool :=
  pyTruthy (dgetD (pyAsDict action) "task_complete" (.bool false))

example : validateActionE (.dict [("action", .str "type"),
    ("target", .dict [("strategy", .str "name"), ("value", .str "q")]),
    ("value", .str "hello")]) = .ok true := rfl

example : validateActionE (.dict [("action", .str "type"),
    ("target", .dict [("strategy", .str "name"), ("value", .str "q")])]) =
    .ok false := rfl

/-! ### JSON decoding (Python json.loads, for the values the code exchanges)

The model traffic consists of JSON objects, arrays, strings, integers,
booleans and null; the decoder below covers exactly that grammar
(floating-point literals do not occur in any exchanged value and are left
undecoded).  Decoding requires the whole input to be consumed, as
json.loads does. -/

/-- JSON whitespace. -/
def isJsonWs (c : Char) : Bool :=
  c = ' ' || c = '\t' || c = '\n' || c = '\r'

/-- Skip leading JSON whitespace. -/
def skipWs : List Char → List Char
  | [] => []
  | c :: rest => if isJsonWs c then skipWs rest else c :: rest

/-- Opening brace character (written by code to keep literal text plain). -/
def lbrace : Char := Char.ofNat 123

/-- Closing brace character. -/
def rbrace : Char := Char.ofNat 125

/-- Decode a JSON string body after the opening quote, handling the simple
escapes; unsupported escapes make decoding fail, as in json.loads. -/
def parseStringLit : List Char → Option (String × List Char)
  | [] => Option.none
  | '"' :: rest => Option.some ("", rest)
  | '\\' :: c :: rest =>
    let esc : Option Char :=
      if c = '"' then Option.some '"'
      else if c = '\\' then Option.some '\\'
      else if c = '/' then Option.some '/'
      else if c = 'n' then Option.some '\n'
      else if c = 't' then Option.some '\t'
      else if c = 'r' then Option.some '\r'
      else Option.none
    match esc with
    | Option.none => Option.none
    | Option.some e =>
      (parseStringLit rest).map fun p => (String.mk (e :: p.1.toList), p.2)
  | c :: rest =>
    (parseStringLit rest).map fun p => (String.mk (c :: p.1.toList), p.2)

/-- Longest digit prefix and the remainder. -/
def takeDigits : List Char → List Char × List Char
  | [] => ([], [])
  | c :: rest =>
    if c.isDigit then
      let p := takeDigits rest
      (c :: p.1, p.2)
    else ([], c :: rest)

/-- Numeric value of a digit list. -/
def digitsToNat (ds : List Char) : Nat :=
  ds.foldl (fun acc c => acc * 10 + (c.toNat - 48)) 0

mutual

/-- Decode one JSON value (fuel-indexed recursive descent). -/
def parseVal : Nat → List Char → Option (PyVal × List Char)
  | 0, _ => Option.none
  | f + 1, cs =>
    match skipWs cs with
    | [] => Option.none
    | 'n' :: 'u' :: 'l' :: 'l' :: rest => Option.some (.null, rest)
    | 't' :: 'r' :: 'u' :: 'e' :: rest => Option.some (.bool true, rest)
    | 'f' :: 'a' :: 'l' :: 's' :: 'e' :: rest => Option.some (.bool false, rest)
    | '"' :: rest => (parseStringLit rest).map fun p => (.str p.1, p.2)
    | '[' :: rest =>
      match skipWs rest with
      | ']' :: rest2 => Option.some (.list [], rest2)
      | rest2 => (parseItems f rest2).map fun p => (.list p.1, p.2)
    | '-' :: rest =>
      match takeDigits rest with
      | ([], _) => Option.none
      | (ds, r) => Option.some (.int (-(digitsToNat ds : Int)), r)
    | c :: rest =>
      if c = lbrace then
        match skipWs rest with
        | c2 :: rest2 =>
          if c2 = rbrace then Option.some (.dict [], rest2)
          else (parseMembers f (c2 :: rest2)).map fun p => (.dict p.1, p.2)
        | [] => Option.none
      else if c.isDigit then
        match takeDigits (c :: rest) with
        | (ds, r) => Option.some (.int (digitsToNat ds), r)
      else Option.none

/-- Decode the items of a non-empty JSON array after the opening bracket. -/
def parseItems : Nat → List Char → Option (List PyVal × List Char)
  | 0, _ => Option.none
  | f + 1, cs =>
    match parseVal f cs with
    | Option.none => Option.none
    | Option.some (v, rest) =>
      match skipWs rest with
      | ',' :: rest2 => (parseItems f rest2).map fun p => (v :: p.1, p.2)
      | ']' :: rest2 => Option.some ([v], rest2)
      | _ => Option.none

/-- Decode the members of a non-empty JSON object after the opening brace. -/
def parseMembers : Nat → List Char → Option (List (String × PyVal) × List Char)
  | 0, _ => Option.none
  | f + 1, cs =>
    match skipWs cs with
    | '"' :: rest =>
      match parseStringLit rest with
      | Option.none => Option.none
      | Option.some (key, rest2) =>
        match skipWs rest2 with
        | ':' :: rest3 =>
          match parseVal f rest3 with
          | Option.none => Option.none
          | Option.some (v, rest4) =>
            match skipWs rest4 with
            | ',' :: rest5 =>
              (parseMembers f rest5).map fun p => ((key, v) :: p.1, p.2)
            | c :: rest5 =>
              if c = rbrace then Option.some ([(key, v)], rest5)
              else Option.none
            | [] => Option.none
        | _ => Option.none
    | _ => Option.none

end

/-- Python json.loads on the exchanged grammar: decode one value and require
the remainder to be whitespace, else fail. -/
def json_loads (s : String) : Option PyVal :=
  match parseVal (2 * s.length + 2) s.toList with
  | Option.some (v, rest) =>
    if (skipWs rest).isEmpty then Option.some v else Option.none
  | Option.none => Option.none

/-- Python str.find for a single character: index of first occurrence. -/
def charFind (s : String) (c : Char) : Option Nat :=
  s.toList.findIdx? fun x => x = c

/-- Python s[n:] on character positions. -/
def dropChars (s : String) (n : Nat) : String :=
  String.mk (s.toList.drop n)

/-! ### LLMInterface._parse_response and decide_next_action -/

/-- The field backfilling of _parse_response (llm_interface.py lines
318-324 and 338-344): add explanation, value and target_achieved with
defaults when absent; new keys land at the end of the dict, as CPython
insertion does. -/
def backfill (d : List (String × PyVal)) : List (String × PyVal) :=
  let d1 := if dcontains d "explanation" then d else d ++ [("explanation", PyVal.null)]
  let d2 := if dcontains d1 "value" then d1 else d1 ++ [("value", PyVal.null)]
  if dcontains d2 "target_achieved" then d2
  else d2 ++ [("target_achieved", PyVal.bool false)]

/-- Per-action processing inside _parse_response: the action must be a dict
holding action and target keys, then missing optional fields are
backfilled.  An `.error` is a raised ValueError. -/
def processOne (a : PyVal) : Except String PyVal :=
  match a with
  | .dict d =>
    if !dcontains d "action" then .error "Action missing action field"
    else if !dcontains d "target" then .error "Action missing target field"
    else .ok (.dict (backfill d))
  | _ => .error "Action is not a dictionary"

/-- Processing of each element of a decoded action list, first failure
propagating (llm_interface.py lines 308-326). -/
def processList : List PyVal → Except String (List PyVal)
  | [] => .ok []
  | a :: rest =>
    match processOne a with
    | .error e => .error e
    | .ok a2 => (processList rest).map fun l => a2 :: l

/-- The decoded-value handling of _parse_response (llm_interface.py lines
303-346): an empty list raises, a non-empty list is processed elementwise,
a single dict is processed alone, anything else raises. -/
def processActions : PyVal → Except String PyVal
  | .list [] => .error "Empty action list received"
  | .list xs => (processList xs).map PyVal.list
  | .dict d => processOne (.dict d)
  | _ => .error "Response is not a dictionary"

/-- LLMInterface._parse_response (llm_interface.py lines 287-351): decode
the raw text as JSON; on failure rescan from the first bracket, trying the
first opening square bracket and otherwise the first opening brace; decode
failures and processing failures are raised ValueErrors (all caught and
re-raised by the enclosing handler as a single ValueError). -/
def parse_response (text : String) : Except String PyVal :=
  match json_loads text with
  | Option.some v => processActions v
  | Option.none =>
    match charFind text '[' with
    | Option.some i =>
      match json_loads (dropChars text i) with
      | Option.some v => processActions v
      | Option.none => .error "Failed to parse LLM response"
    | Option.none =>
      match charFind text lbrace with
      | Option.some i =>
        match json_loads (dropChars text i) with
        | Option.some v => processActions v
        | Option.none => .error "Failed to parse LLM response"
      | Option.none => .error "No JSON object found in response"

/-- Outcome of the HTTP exchange with the model service, as seen by
_send_to_llm: either the transport layer raised (requests.post or
response.json() failed), or a message content string was extracted. -/
inductive LLMResult where
  | transportError
  | content (text : String)

/-- Python str whitespace for strip(). -/
def isPyWs (c : Char) : Bool :=
  c = ' ' || c = '\t' || c = '\n' || c = '\r' || c = '\x0b' || c = '\x0c'

/-- Drop leading Python whitespace from a character list. -/
def dropLeadingWs : List Char → List Char
  | [] => []
  | c :: rest => if isPyWs c then dropLeadingWs rest else c :: rest

/-- Python str.strip(). -/
def pyStrip (s : String) : String :=
  String.mk ((dropLeadingWs ((dropLeadingWs s.toList).reverse)).reverse)

/-- LLMInterface._send_to_llm (llm_interface.py lines 219-282): strip the
content; an empty string raises; otherwise the text goes through
_parse_response.  Every raised error is re-raised as a ValueError whose
message starts with a fixed prefix. -/
def send_to_llm (r : LLMResult) : Except String PyVal :=
  match r with
  | .transportError => .error "Failed to get LLM response"
  | .content text =>
    let t := pyStrip text
    if t = "" then .error "Failed to get LLM response: Empty response from LLM"
    else
      match parse_response t with
      | .ok v => .ok v
      | .error e => .error ("Failed to get LLM response: " ++ e)

/-- LLMInterface.decide_next_action (llm_interface.py lines 408-441): send
the prepared prompt; validate every action of a list response, or the
single dict response, with _validate_response; any raised error anywhere in
the pipeline is caught and turned into a None return. -/
def decide_next_action (r : LLMResult) : Option PyVal :=
  match send_to_llm r with
  | .error _ => Option.none
  | .ok response =>
    match response with
    | .list actions =>
      if actions.all validate_response then Option.some (.list actions)
      else Option.none
    | v => if validate_response v then Option.some v else Option.none

example : json_loads "[]" = Option.some (.list []) := rfl

example : json_loads "garbage" = Option.none := rfl

example : parse_response "[]" = .error "Empty action list received" := rfl

example : parse_response "garbage" = .error "No JSON object found in response" := rfl

example :
    parse_response "[\x7b\"action\": \"navigate\", \"target\": \"https://x.com\"\x7d]" =
      .ok (.list [.dict [("action", .str "navigate"),
        ("target", .str "https://x.com"), ("explanation", .null),
        ("value", .null), ("target_achieved", .bool false)]]) := rfl

/-! ### WebNavigator.perform_action (navigator.py lines 263-337) -/

/-- Outcome of one blocking element lookup performed by the driver. -/
inductive LookupResult where
  | found (text : String)
  | timeout

/-- One call issued to the Selenium driver, recorded for observation. -/
inductive DriverCall where
  | lookup (byStrategy : String) (selector : PyVal)
  | navigateCall (url : PyVal)
  | sleepCall (secs : Int)
deriving Repr

/-- The by_map of perform_action (navigator.py lines 281-290), keys mapped
to the Selenium By constant values. -/
def by_map : List (String × String) :=
  [("id", "id"), ("name", "name"), ("css", "css selector"),
   ("xpath", "xpath"), ("link_text", "link text"),
   ("partial_link_text", "partial link text"),
   ("class_name", "class name"), ("tag_name", "tag name")]

/-- Python int() conversion, used by the wait action: ints pass through,
strings parse after stripping, booleans coerce, everything else raises. -/
def pyToInt : PyVal → Option Int
  | .int n => Option.some n
  | .str s => (pyStrip s).toInt?
  | .bool b => Option.some (if b then 1 else 0)
  | _ => Option.none

/-- WebNavigator.perform_action, parameterized by the driver's element
lookup behaviour and returning the result (or raised exception, every
handler re-raising as a generic Exception) together with the trace of
driver calls actually issued.  A dict target reads strategy (default css)
and value; a bare target uses the css strategy with the target as value.
An unrecognized strategy raises before any driver call.  The page-load
wait after driver.get is modeled as completing. -/
def perform_action (lookup : String → PyVal → LookupResult) (action : PyVal) :
    Except String String × List DriverCall :=
  let d := pyAsDict action
  let action_type := dgetD d "action" .null
  let selector_info := dgetD d "target" .null
  let sel :=
    match selector_info with
    | .dict t => (dgetD t "strategy" (.str "css"), dgetD t "value" .null)
    | v => (PyVal.str "css", v)
  if !(by_map.any fun kv => pyEqStr sel.1 kv.1) then
    (.error "Invalid selector strategy", [])
  else
    let byS := ((by_map.find? fun kv => pyEqStr sel.1 kv.1).map Prod.snd).getD ""
    if pyEqStr action_type "click" then
      match lookup byS sel.2 with
      | .timeout => (.error "Timeout waiting for element", [.lookup byS sel.2])
      | .found _ => (.ok "Action completed successfully", [.lookup byS sel.2])
    else if pyEqStr action_type "type" then
      match lookup byS sel.2 with
      | .timeout => (.error "Timeout waiting for element", [.lookup byS sel.2])
      | .found _ => (.ok "Action completed successfully", [.lookup byS sel.2])
    else if pyEqStr action_type "wait" then
      match pyToInt sel.2 with
      | Option.some n => (.ok "Action completed successfully", [.sleepCall n])
      | Option.none => (.error "invalid literal for int", [])
    else if pyEqStr action_type "extract" then
      match lookup byS sel.2 with
      | .timeout => (.error "Timeout waiting for element", [.lookup byS sel.2])
      | .found t => (.ok t, [.lookup byS sel.2])
    else if pyEqStr action_type "navigate" then
      (.ok "Action completed successfully", [.navigateCall sel.2])
    else
      (.ok "Action completed successfully", [])

/-! ### WebNavigator.handle_prompt (navigator.py lines 49-222) -/

/-- Mutable loop state: the retry counter and the action history ledger. -/
structure NavState where
  retry : Nat
  history : List PyVal
deriving Repr

/-- The history record appended after a successful action (navigator.py
lines 198-205): action, target and the iteration url, plus the typed value
for type actions. -/
def mkRecord (action : PyVal) (url : String) : PyVal :=
  let d := pyAsDict action
  let base := [("action", dgetD d "action" .null),
    ("target", dgetD d "target" .null), ("url", PyVal.str url)]
  if pyEqStr (dgetD d "action" .null) "type" then
    .dict (base ++ [("value", dgetD d "value" .null)])
  else .dict base

/-- Result of running the for-loop over one action batch. -/
inductive BatchOut where
  | ret (result : String) (st : NavState)
  | done (st : NavState)
  | exn (st : NavState)
  | oos (st : NavState)
deriving Repr

/-- The for-loop body of the RUNNING iteration (navigator.py lines
172-213): validate each action; an invalid action increments the retry
counter and `continue`s to the next action of the same batch; a valid
action is performed (outcomes supplied by the environment script, one per
performed action), its record appended to the history, the completion test
applied (returning the perform result when it fires), and the retry
counter reset to zero.  A raised exception abandons the batch (`exn`);
`oos` marks an exhausted outcome script (a model artifact, never reached
in the runs the theorems describe). -/
def runBatch : List PyVal → List (Except String String) → String → NavState → BatchOut
  | [], _, _, st => .done st
  | a :: rest, performs, url, st =>
    match validateActionE a with
    | .error _ => .exn st
    | .ok false => runBatch rest performs url { st with retry := st.retry + 1 }
    | .ok true =>
      match performs with
      | [] => .oos st
      | p :: ps =>
        match p with
        | .error _ => .exn st
        | .ok result =>
          let st2 : NavState := { st with history := st.history ++ [mkRecord a url] }
          if is_task_complete a then .ret result st2
          else runBatch rest ps url { st2 with retry := 0 }

/-- Python `for x in v`: a list iterates its elements, a dict its keys;
other shapes either iterate characters (strings) or raise. -/
def iterElems : PyVal → Except Unit (List PyVal)
  | .list xs => .ok xs
  | .dict d => .ok (d.map fun kv => PyVal.str kv.1)
  | .str s => .ok (s.toList.map fun c => PyVal.str (String.mk [c]))
  | _ => .error ()

/-- Environment of one RUNNING iteration: what decide_next_action returned,
the outcomes of the perform_action calls of the iteration in order, and
the current url reported by the driver. -/
structure IterEnv where
  decide : Option PyVal
  performs : List (Except String String)
  url : String

/-- Terminal observation of handle_prompt's main loop: a plain `return`
(value None), a returned result string, the raised maximum-retries
exception, or an exhausted environment script (model artifact). -/
inductive LoopOut where
  | returnedNone (st : NavState)
  | returnedResult (r : String) (st : NavState)
  | raisedMax (st : NavState)
  | oos (st : NavState)
deriving Repr

/-- The main while-loop of handle_prompt (navigator.py lines 134-222).
Each pass first checks retry < max_retries (otherwise the loop exits and
the function returns final_result, which stays None); a None from
decide_next_action triggers an immediate bare `return`; otherwise the
batch runs, and an exception during it increments the retry counter,
re-raising as "Maximum retries exceeded" when the counter reaches
max_retries. -/
def runLoop (maxRetries : Nat) : List IterEnv → NavState → LoopOut
  | [], st => if st.retry < maxRetries then .oos st else .returnedNone st
  | env :: rest, st =>
    if st.retry < maxRetries then
      match env.decide with
      | Option.none => .returnedNone st
      | Option.some actions =>
        match iterElems actions with
        | .error _ =>
          -- iterating a non-iterable raises; the except block handles it
          if st.retry + 1 ≥ maxRetries then .raisedMax { st with retry := st.retry + 1 }
          else runLoop maxRetries rest { st with retry := st.retry + 1 }
        | .ok elems =>
          match runBatch elems env.performs env.url st with
          | .ret r st2 => .returnedResult r st2
          | .oos st2 => .oos st2
          | .done st2 => runLoop maxRetries rest st2
          | .exn st2 =>
            if st2.retry + 1 ≥ maxRetries then
              .raisedMax { st2 with retry := st2.retry + 1 }
            else runLoop maxRetries rest { st2 with retry := st2.retry + 1 }
    else .returnedNone st

/-- The initial action of handle_prompt (navigator.py line 54): the model
call of line 53 is commented out in the source and a constant takes its
place. -/
def initial_action : PyVal :=
  .dict [("action", .str "navigate"), ("target", .str "https://www.google.com")]

/-- Result of the initialization phase preceding the main loop. -/
inductive InitOutcome where
  | proceeded (navigatedTo : String) (history : List PyVal)
  | raisedInit (msg : String)
deriving Repr

/-- String content of a PyVal, for driver.get arguments. -/
def pyStr : PyVal → String
  | .str s => s
  | _ => ""

/-- The initialization phase of handle_prompt (navigator.py lines 49-131):
branch on the initial action kind; the search branch (unreachable while
initial_action is the hardcoded navigate constant) performs a Google
search, asks the model for a click on a result and raises unless it gets
one; the navigate branch drives to the target and appends one navigate
record.  The prompt argument is embedded even though the source no longer
consults it for the initial action. -/
def initPhase (searchDecide : Option PyVal) (searchPerform : Except String String)
    (prompt : String) : InitOutcome :=
  let ia := pyAsDict initial_action
  if pyEqStr (dgetD ia "action" .null) "search" then
    let searchRec : PyVal := .dict [("action", .str "search"),
      ("query", dgetD ia "target" .null), ("url", .str "https://www.google.com")]
    match searchDecide with
    | Option.none =>
      -- subscripting None raises an uncaught TypeError
      .raisedInit "TypeError"
    | Option.some ra =>
      if pyEqStr (dgetD (pyAsDict ra) "action" .null) "click" then
        match searchPerform with
        | .error e => .raisedInit e
        | .ok _ =>
          let clickRec : PyVal := .dict [("action", .str "click"),
            ("target", dgetD (pyAsDict ra) "target" .null),
            ("url", .str "https://www.google.com")]
          .proceeded "https://www.google.com" [searchRec, clickRec]
      else .raisedInit "LLM failed to select a search result"
  else
    let tgt := dgetD ia "target" .null
    .proceeded (pyStr tgt) [.dict [("action", .str "navigate"),
      ("target", tgt), ("url", tgt)]]

/-- WebNavigator.handle_prompt end to end: initialization (starting from an
empty ledger and retry counter 0) followed by the main loop with the
environment script; an exception in initialization propagates to the
caller. -/
def handle_prompt (searchDecide : Option PyVal) (searchPerform : Except String String)
    (script : List IterEnv) (maxRetries : Nat) (prompt : String) :
    Except String LoopOut :=
  match initPhase searchDecide searchPerform prompt with
  | .raisedInit e => .error e
  | .proceeded _ hist => .ok (runLoop maxRetries script ⟨0, hist⟩)

/-! ### Helper lemmas -/

/-- Lookup distributes over dict append (new keys land at the end and are
shadowed by existing ones). -/
theorem dgetOpt_append (d1 d2 : List (String × PyVal)) (k : String) :
    dgetOpt (d1 ++ d2) k = ((dgetOpt d1 k).orElse fun _ => dgetOpt d2 k) := by
  induction d1 with
  | nil => simp [dgetOpt]
  | cons kv rest ih =>
    obtain ⟨k1, v1⟩ := kv
    by_cases h : k1 = k <;> simp [dgetOpt, h, ih]

/-- Key membership distributes over dict append. -/
theorem dcontains_append (d1 d2 : List (String × PyVal)) (k : String) :
    dcontains (d1 ++ d2) k = (dcontains d1 k || dcontains d2 k) := by
  simp only [dcontains, dgetOpt_append]
  cases dgetOpt d1 k <;> simp [Option.orElse]

/-- Adding a key only when absent does not affect other keys. -/
theorem dcontains_addIfAbsent_other (d : List (String × PyVal)) (k1 k2 : String)
    (v : PyVal) (h : k1 ≠ k2) :
    dcontains (if dcontains d k1 then d else d ++ [(k1, v)]) k2 = dcontains d k2 := by
  split_ifs with hc
  · rfl
  · simp only [dcontains, dgetOpt_append]
    cases dgetOpt d k2 <;> simp [Option.orElse, dgetOpt, h]

/-- Adding a key when absent makes it present. -/
theorem dcontains_addIfAbsent_self (d : List (String × PyVal)) (k : String) (v : PyVal) :
    dcontains (if dcontains d k then d else d ++ [(k, v)]) k = true := by
  split_ifs with hc
  · exact hc
  · have hnone : dgetOpt d k = Option.none := by
      cases hv : dgetOpt d k
      · rfl
      · exact absurd (by simp [dcontains, hv]) hc
    simp [dcontains, dgetOpt_append, hnone, Option.orElse, dgetOpt]

/-- Backfilling never introduces a task_complete key. -/
theorem backfill_task_complete (d : List (String × PyVal)) :
    dcontains (backfill d) "task_complete" = dcontains d "task_complete" := by
  unfold backfill
  rw [dcontains_addIfAbsent_other _ _ _ _ (by decide),
    dcontains_addIfAbsent_other _ _ _ _ (by decide),
    dcontains_addIfAbsent_other _ _ _ _ (by decide)]

/-- Backfilling guarantees a target_achieved key. -/
theorem backfill_target_achieved (d : List (String × PyVal)) :
    dcontains (backfill d) "target_achieved" = true := by
  unfold backfill
  rw [dcontains_addIfAbsent_self]

/-! ### Claim C7 -/

/-- The round-trip type action of the specification. -/
def c7action : PyVal :=
  .dict [("action", .str "type"),
    ("target", .dict [("strategy", .str "name"), ("value", .str "q")]),
    ("value", .str "hello")]

/-- The same action with the value field removed. -/
def c7actionNoValue : PyVal :=
  .dict [("action", .str "type"),
    ("target", .dict [("strategy", .str "name"), ("value", .str "q")])]

/-- Claim C7: the Validator accepts the type action with target
strategy name / value q and value hello, and rejects the same action with
the value field removed (a type action with no value never reaches
execution). -/
theorem validator_type_value_roundtrip :
    validateActionE c7action = .ok true ∧
      validateActionE c7actionNoValue = .ok false :=
  ⟨rfl, rfl⟩

/-! ### Claim C9 -/

/-- Raw model text of a type action that omits value (the shape whose
normalization the claim describes). -/
def c9text : String :=
  "[\x7b\"action\": \"type\", \"target\": \x7b\"strategy\": \"name\", \"value\": \"q\"\x7d\x7d]"

/-- The dict produced for c9text by _parse_response: value is backfilled
to null and is therefore present as a key. -/
def c9parsed : List (String × PyVal) :=
  [("action", .str "type"),
   ("target", .dict [("strategy", .str "name"), ("value", .str "q")]),
   ("explanation", .null), ("value", .null), ("target_achieved", .bool false)]

/-- Claim C9: a type action whose value key is present but holds null is
accepted by the Validator — the type-requires-value rule tests key
presence only.  The parser normalization of a type action without value
produces exactly this shape, the Validator accepts it, and the loop
executes it (one perform outcome is consumed and a history record is
appended). -/
theorem type_action_null_value_accepted :
    (∀ t : String, validateActionE (.dict [("action", .str "type"),
      ("target", .str t), ("value", .null)]) = .ok true) ∧
    parse_response c9text = .ok (.list [.dict c9parsed]) ∧
    dgetOpt c9parsed "value" = Option.some .null ∧
    validateActionE (.dict c9parsed) = .ok true ∧
    runBatch [.dict c9parsed] [Except.ok "Action completed successfully"]
      "https://page.test" ⟨0, []⟩ =
      .done ⟨0, [mkRecord (.dict c9parsed) "https://page.test"]⟩ :=
  ⟨fun _ => rfl, rfl, rfl, rfl, rfl⟩

/-! ### Claim C2 -/

/-- Claim C2 counterexample: raw model text that decodes to an empty list
makes _parse_response raise a ValueError (embedded as the error branch) —
it does not return a fallback navigate action, refuting the never-raises
fallback contract at the concrete input "[]". -/
theorem parse_empty_list_raises :
    parse_response "[]" = .error "Empty action list received" :=
  rfl

/-- Claim C2 amended: on malformed raw text (no JSON anywhere) or on text
decoding to an empty list, _parse_response raises a ValueError; the error
is caught in decide_next_action, which returns None — no fallback action
is substituted anywhere in the pipeline. -/
theorem parse_failure_raises_and_decide_none :
    parse_response "no json to be found" = .error "No JSON object found in response" ∧
    parse_response "[]" = .error "Empty action list received" ∧
    decide_next_action (.content "no json to be found") = Option.none ∧
    decide_next_action (.content "[]") = Option.none :=
  ⟨rfl, rfl, rfl, rfl⟩

/-! ### Claim C3 -/

/-- The history record appended by the navigate branch of the
initialization phase. -/
def googleNavRecord : PyVal :=
  .dict [("action", .str "navigate"), ("target", .str "https://www.google.com"),
    ("url", .str "https://www.google.com")]

/-- Claim C3 counterexample: for the task "navigate to
https://example.com" the initialization phase executes a navigation to
https://www.google.com — the hardcoded initial action of navigator.py line
54 — and appends the corresponding record; the model is never consulted
and the executed target differs from the task's URL. -/
theorem initial_action_ignores_task :
    initPhase Option.none (Except.ok "") "navigate to https://example.com" =
      .proceeded "https://www.google.com" [googleNavRecord] ∧
    "https://www.google.com" ≠ "https://example.com" :=
  ⟨rfl, by decide⟩

/-- Claim C3 amended: the initial action is the constant
navigate-to-google of navigator.py line 54 for every task prompt and every
model behaviour; the loop starts with exactly the google navigation
record in its ledger. -/
theorem initial_action_constant_navigate :
    ∀ (sd : Option PyVal) (sp : Except String String) (prompt : String),
      initPhase sd sp prompt = .proceeded "https://www.google.com" [googleNavRecord] :=
  fun _ _ _ => rfl

/-! ### Claim C1 -/

/-- A batch action with an unrecognized kind (fails validation). -/
def c1bad : PyVal := .dict [("action", .str "fly"), ("target", .str "#btn")]

/-- A valid click action following the invalid one in the same batch. -/
def c1good : PyVal := .dict [("action", .str "click"), ("target", .str "#ok")]

/-- The record the loop appends for c1good. -/
def c1record : PyVal :=
  .dict [("action", .str "click"), ("target", .str "#ok"),
    ("url", .str "https://site.test")]

/-- Claim C1 counterexample: in the batch [c1bad, c1good] the first action
fails validation, yet the batch is not abandoned — the following valid
action is executed and its record appended (final ledger has one entry,
not zero), and the increment for the invalid action is erased by the
per-action reset. -/
theorem invalid_action_batch_not_abandoned :
    runBatch [c1bad, c1good] [Except.ok "Action completed successfully"]
      "https://site.test" ⟨0, []⟩ = .done ⟨0, [c1record]⟩ ∧
    validateActionE c1bad = .ok false :=
  ⟨rfl, rfl⟩

/-- Claim C1 amended: an action that fails validation increments the retry
counter by one and is skipped via `continue`; the rest of the batch is
still processed in the incremented state (navigator.py lines 188-191), so
each invalid action contributes exactly one increment and batch execution
is per-action, not all-or-nothing. -/
theorem invalid_action_increments_and_skips (a : PyVal) (rest : List PyVal)
    (performs : List (Except String String)) (url : String) (st : NavState)
    (h : validateActionE a = .ok false) :
    runBatch (a :: rest) performs url st =
      runBatch rest performs url ⟨st.retry + 1, st.history⟩ := by
  simp [runBatch, h]

/-- Concrete instance of the skip equation at the [c1bad, c1good] batch. -/
theorem invalid_action_increments_and_skips_witness :
    runBatch [c1bad, c1good] [Except.ok "Action completed successfully"]
      "https://site.test" ⟨0, []⟩ =
    runBatch [c1good] [Except.ok "Action completed successfully"]
      "https://site.test" ⟨1, []⟩ :=
  invalid_action_increments_and_skips c1bad [c1good] _ _ ⟨0, []⟩ rfl

/-! ### Claim C5 -/

/-- A batch action with an unrecognized kind used in the C5 run. -/
def c5bad : PyVal := .dict [("action", .str "hover"), ("target", .str "#menu")]

/-- A valid extract action following the invalid one. -/
def c5good : PyVal := .dict [("action", .str "extract"), ("target", .str ".price")]

/-- The record the loop appends for c5good. -/
def c5record : PyVal :=
  .dict [("action", .str "extract"), ("target", .str ".price"),
    ("url", .str "https://shop.test")]

/-- A standalone valid click action for the C5 witness. -/
def c5clean : PyVal := .dict [("action", .str "click"), ("target", .str "#go")]

/-- Claim C5 counterexample: an iteration that does NOT complete its batch
without error (c5bad fails validation, incrementing the counter from 1 to
2) still ends with the retry counter at 0, because the reset of
navigator.py line 213 sits inside the for-loop and fires after each
individual successful action — refuting that the reset happens only after
a fully successful iteration. -/
theorem retry_reset_by_individual_action :
    runBatch [c5bad, c5good] [Except.ok "99.99"] "https://shop.test" ⟨1, []⟩ =
      .done ⟨0, [c5record]⟩ ∧
    validateActionE c5bad = .ok false :=
  ⟨rfl, rfl⟩

/-- All-valid, all-successful, non-completing batches end with the counter
at zero (helper for the amended C5 statement). -/
theorem runBatch_clean_done (acts : List PyVal) (rs : List String) (url : String) :
    acts ≠ [] → acts.length = rs.length →
    (∀ a ∈ acts, validateActionE a = .ok true) →
    (∀ a ∈ acts, is_task_complete a = false) →
    ∀ st : NavState, ∃ h2 : List PyVal,
      runBatch acts (rs.map Except.ok) url st = .done ⟨0, h2⟩ := by
  induction acts generalizing rs with
  | nil => intro hne; exact absurd rfl hne
  | cons a rest ih =>
    intro _ hlen hval hcomp st
    cases rs with
    | nil => simp at hlen
    | cons r rrest =>
      have hva : validateActionE a = .ok true := hval a (List.mem_cons_self a rest)
      have hca : is_task_complete a = false := hcomp a (List.mem_cons_self a rest)
      simp only [List.map_cons, runBatch, hva, hca]
      cases rest with
      | nil => exact ⟨st.history ++ [mkRecord a url], by simp [runBatch]⟩
      | cons b brest =>
        simp only [List.length_cons, Nat.succ_inj] at hlen
        exact ih rrest (by simp) hlen
          (fun x hx => hval x (List.mem_cons_of_mem _ hx))
          (fun x hx => hcomp x (List.mem_cons_of_mem _ hx))
          ⟨0, st.history ++ [mkRecord a url]⟩

/-- Claim C5 amended: the retry counter is reset to zero after each
individual successfully executed, non-completing action (navigator.py
line 213), not once per iteration.  Consequently an iteration whose whole
batch completes without error does end with the counter at 0 — even if
earlier iterations had incremented it — but the same final value also
arises in iterations whose earlier actions failed validation, as the
counterexample shows. -/
theorem retry_zero_after_clean_iteration :
    (∀ (a : PyVal) (rest : List PyVal) (p : String) (ps : List (Except String String))
        (url : String) (st : NavState),
      validateActionE a = .ok true → is_task_complete a = false →
      runBatch (a :: rest) (Except.ok p :: ps) url st =
        runBatch rest ps url ⟨0, st.history ++ [mkRecord a url]⟩) ∧
    (∀ (acts : List PyVal) (rs : List String) (url : String) (st : NavState),
      acts ≠ [] → acts.length = rs.length →
      (∀ a ∈ acts, validateActionE a = .ok true) →
      (∀ a ∈ acts, is_task_complete a = false) →
      ∃ h2, runBatch acts (rs.map Except.ok) url st = .done ⟨0, h2⟩) := by
  constructor
  · intro a rest p ps url st hv hc
    simp [runBatch, hv, hc]
  · intro acts rs url st hne hlen hval hcomp
    exact runBatch_clean_done acts rs url hne hlen hval hcomp st

/-- Concrete instance: a single-action clean iteration starting with the
counter at 2 ends with the counter at 0. -/
theorem retry_zero_after_clean_iteration_witness :
    runBatch [c5clean] [Except.ok "done"] "https://w.test" ⟨2, []⟩ =
      runBatch [] [] "https://w.test" ⟨0, [mkRecord c5clean "https://w.test"]⟩ ∧
    ∃ h2, runBatch [c5clean] (["done"].map Except.ok) "https://w.test" ⟨2, []⟩ =
      .done ⟨0, h2⟩ :=
  ⟨retry_zero_after_clean_iteration.1 c5clean [] "done" [] _ ⟨2, []⟩ rfl rfl,
   retry_zero_after_clean_iteration.2 [c5clean] ["done"] _ ⟨2, []⟩ (by simp)
     (by simp)
     (fun a ha => by rw [List.mem_singleton] at ha; subst ha; rfl)
     (fun a ha => by rw [List.mem_singleton] at ha; subst ha; rfl)⟩

/-! ### Claim C6 -/

/-- Raw model text of an action that omits the completion field. -/
def c6text : String :=
  "[\x7b\"action\": \"navigate\", \"target\": \"https://n.test\"\x7d]"

/-- The dict _parse_response produces for c6text. -/
def c6parsed : List (String × PyVal) :=
  [("action", .str "navigate"), ("target", .str "https://n.test"),
   ("explanation", .null), ("value", .null), ("target_achieved", .bool false)]

/-- An action carrying a truthy task_complete flag. -/
def c6done : PyVal :=
  .dict [("action", .str "click"), ("target", .str "#finish"),
    ("task_complete", .bool true)]

/-- Claim C6 counterexample: the parser does not backfill the completion
field the loop reads — for an action without it, the processed dict
carries no task_complete key (the parser backfills target_achieved
instead, llm_interface.py lines 323-324); absence reads as false only
because the completion check itself supplies the default. -/
theorem parser_not_backfilling_task_complete :
    parse_response c6text = .ok (.list [.dict c6parsed]) ∧
    dcontains c6parsed "task_complete" = false ∧
    dcontains c6parsed "target_achieved" = true ∧
    is_task_complete (.dict c6parsed) = false :=
  ⟨rfl, rfl, rfl, rfl⟩

/-- Claim C6 amended: for every executed action whose task_complete field
is truthy, the loop returns that action's execution result (after
appending its record), transitioning to success; but the parser backfills
target_achieved = false rather than task_complete — an absent
task_complete is defaulted to false by the completion check itself
(navigator.py line 226), not by the parser. -/
theorem task_complete_returns_result :
    (∀ (a : PyVal) (rest : List PyVal) (p : String) (ps : List (Except String String))
        (url : String) (st : NavState),
      validateActionE a = .ok true → is_task_complete a = true →
      runBatch (a :: rest) (Except.ok p :: ps) url st =
        .ret p ⟨st.retry, st.history ++ [mkRecord a url]⟩) ∧
    (∀ d : List (String × PyVal),
      dcontains (backfill d) "task_complete" = dcontains d "task_complete" ∧
      dcontains (backfill d) "target_achieved" = true) := by
  constructor
  · intro a rest p ps url st hv hc
    simp [runBatch, hv, hc]
  · intro d
    exact ⟨backfill_task_complete d, backfill_target_achieved d⟩

/-- Concrete instance: the completing click action returns its result with
the ledger extended, and backfilling an action dict without the field
leaves task_complete absent while adding target_achieved. -/
theorem task_complete_returns_result_witness :
    runBatch [c6done] [Except.ok "Action completed successfully"]
      "https://d.test" ⟨1, []⟩ =
      .ret "Action completed successfully" ⟨1, [mkRecord c6done "https://d.test"]⟩ ∧
    (dcontains (backfill [("action", PyVal.str "click"), ("target", PyVal.str "#x")])
        "task_complete" =
      dcontains [("action", PyVal.str "click"), ("target", PyVal.str "#x")]
        "task_complete" ∧
      dcontains (backfill [("action", PyVal.str "click"), ("target", PyVal.str "#x")])
        "target_achieved" = true) :=
  ⟨task_complete_returns_result.1 c6done [] _ [] _ ⟨1, []⟩ rfl rfl,
   task_complete_returns_result.2 _⟩

/-! ### Claim C4 -/

/-- A valid click action whose execution will fail in the C4 run. -/
def c4act : PyVal := .dict [("action", .str "click"), ("target", .str "#x")]

/-- An iteration in which the single valid action raises a timeout. -/
def c4env : IterEnv :=
  ⟨Option.some (.list [c4act]), [Except.error "Timeout waiting for element"],
    "https://c4.test"⟩

/-- Claim C4 counterexample: the model returning "[]" makes
decide_next_action return None, and the loop then performs a bare
`return` on the very first iteration — returning None to the caller with
the retry counter untouched, not a FAILED outcome with cause
MaxRetriesExceeded, even with three such iterations scripted and
max_retries = 3. -/
theorem empty_response_returns_none_not_failed :
    decide_next_action (.content "[]") = Option.none ∧
    runLoop 3 [⟨decide_next_action (.content "[]"), [], "https://g.test"⟩,
        ⟨decide_next_action (.content "[]"), [], "https://g.test"⟩,
        ⟨decide_next_action (.content "[]"), [], "https://g.test"⟩] ⟨0, []⟩ =
      .returnedNone ⟨0, []⟩ :=
  ⟨rfl, rfl⟩

/-- Claim C4 amended: the loop raises Maximum retries exceeded only on the
exception path — when an exception during an iteration (for example a
driver timeout) increments the counter to max_retries; a None from
decide_next_action (the unusable/empty-response case) instead returns
None immediately, and a counter already at the limit makes the while loop
exit returning None. -/
theorem max_retries_raised_on_exception_path :
    (∀ (maxR : Nat) (env : IterEnv) (rest : List IterEnv) (st st2 : NavState)
        (acts : PyVal) (elems : List PyVal),
      st.retry < maxR → env.decide = Option.some acts →
      iterElems acts = .ok elems →
      runBatch elems env.performs env.url st = .exn st2 →
      maxR ≤ st2.retry + 1 →
      runLoop maxR (env :: rest) st = .raisedMax ⟨st2.retry + 1, st2.history⟩) ∧
    (∀ (maxR : Nat) (env : IterEnv) (rest : List IterEnv) (st : NavState),
      st.retry < maxR → env.decide = Option.none →
      runLoop maxR (env :: rest) st = .returnedNone st) ∧
    (∀ (maxR : Nat) (script : List IterEnv) (st : NavState),
      maxR ≤ st.retry → runLoop maxR script st = .returnedNone st) := by
  refine ⟨?_, ?_, ?_⟩
  · intro maxR env rest st st2 acts elems h1 h2 h3 h4 h5
    simp [runLoop, h1, h2, h3, h4, h5]
  · intro maxR env rest st h1 h2
    simp [runLoop, h1, h2]
  · intro maxR script st h
    cases script <;> simp [runLoop, Nat.not_lt.mpr h]

/-- Concrete instances of the three dispositions: a third consecutive
exception raises; a None decision returns None; a counter at the limit
exits returning None. -/
theorem max_retries_raised_on_exception_path_witness :
    runLoop 3 [c4env] ⟨2, []⟩ = .raisedMax ⟨3, []⟩ ∧
    runLoop 3 [⟨Option.none, [], "https://g.test"⟩] ⟨0, []⟩ = .returnedNone ⟨0, []⟩ ∧
    runLoop 3 [] ⟨3, []⟩ = .returnedNone ⟨3, []⟩ :=
  ⟨max_retries_raised_on_exception_path.1 3 c4env [] ⟨2, []⟩ ⟨2, []⟩
      (.list [c4act]) [c4act] (by decide) rfl rfl rfl (by decide),
   max_retries_raised_on_exception_path.2.1 3 _ [] ⟨0, []⟩ (by decide) rfl,
   max_retries_raised_on_exception_path.2.2 3 [] ⟨3, []⟩ (by decide)⟩

/-! ### Claim C10 -/

/-- Raw model text decoding to a list holding an action of unrecognized
kind (passes the parser's key checks, fails _validate_response). -/
def c10badText : String := "[\x7b\"action\": \"fly\", \"target\": \"#b\"\x7d]"

/-- Claim C10: every failure in the model-interface pipeline — transport
error, undecodable response text, or an invalid action inside the decoded
list — makes decide_next_action return None, and a None decision makes
the control loop return None at once, leaving the state (retry counter
and ledger) untouched, raising nothing and producing no FAILED outcome. -/
theorem llm_failure_returns_none_no_retry :
    decide_next_action .transportError = Option.none ∧
    decide_next_action (.content "the model rambles with no usable data") =
      Option.none ∧
    decide_next_action (.content c10badText) = Option.none ∧
    (∀ (maxR : Nat) (env : IterEnv) (rest : List IterEnv) (st : NavState),
      st.retry < maxR → env.decide = Option.none →
      runLoop maxR (env :: rest) st = .returnedNone st) := by
  refine ⟨rfl, rfl, rfl, ?_⟩
  intro maxR env rest st h1 h2
  simp [runLoop, h1, h2]

/-- Concrete instance: a None decision with the counter at 4 of 7 returns
None with the state unchanged. -/
theorem llm_failure_returns_none_no_retry_witness :
    runLoop 7 [⟨Option.none, [], "https://w10.test"⟩] ⟨4, []⟩ =
      .returnedNone ⟨4, []⟩ :=
  llm_failure_returns_none_no_retry.2.2.2 7 _ [] ⟨4, []⟩ (by decide) rfl

/-! ### Claim C8 -/

/-- The bogus-strategy locator of the specification scenario. -/
def c8target : List (String × PyVal) :=
  [("strategy", .str "bogus"), ("value", .str "x")]

/-- A type action carrying the bogus-strategy locator. -/
def c8dict : List (String × PyVal) :=
  [("action", .str "type"), ("target", .dict c8target), ("value", .str "hi")]

/-- Claim C8: an action whose structured locator carries a strategy
outside the recognized set is rejected by the Validator, and
perform_action raises its invalid-strategy ValueError before issuing any
driver call whatsoever (the recorded driver-call trace is empty), for
every driver behaviour. -/
theorem bogus_strategy_rejected_before_driver
    (lookup : String → PyVal → LookupResult) (d t : List (String × PyVal))
    (s : PyVal)
    (htarget : dgetOpt d "target" = Option.some (.dict t))
    (hstrat : dgetOpt t "strategy" = Option.some s)
    (hbad : ∀ r ∈ recognizedStrategies, pyEqStr s r = false) :
    validateActionE (.dict d) = .ok false ∧
      (perform_action lookup (.dict d)).2 = [] := by
  have hgt : dgetD d "target" PyVal.null = .dict t := by simp [dgetD, htarget]
  have hgsc : dgetD t "strategy" (PyVal.str "css") = s := by simp [dgetD, hstrat]
  have hgs : dgetD t "strategy" PyVal.null = s := by simp [dgetD, hstrat]
  have hct : dcontains d "target" = true := by simp [dcontains, htarget]
  have hcs : dcontains t "strategy" = true := by simp [dcontains, hstrat]
  have hrec : (recognizedStrategies.any fun r => pyEqStr s r) = false := by
    rw [List.any_eq_false]
    intro r hr
    simp [hbad r hr]
  have hbm : (by_map.any fun kv => pyEqStr s kv.1) = false := by
    rw [List.any_eq_false]
    intro kv hkv
    fin_cases hkv
    · simpa using hbad "id" (by decide)
    · simpa using hbad "name" (by decide)
    · simpa using hbad "css" (by decide)
    · simpa using hbad "xpath" (by decide)
    · simpa using hbad "link_text" (by decide)
    · simpa using hbad "partial_link_text" (by decide)
    · simpa using hbad "class_name" (by decide)
    · simpa using hbad "tag_name" (by decide)
  constructor
  · simp only [validateActionE]
    cases hca : dcontains d "action" with
    | false => simp [hca]
    | true =>
      cases hact : (recognizedActions.any fun r =>
          pyEqStr (dgetD d "action" PyVal.null) r) with
      | false => simp [hca, hct, hact]
      | true =>
        cases hcv : dcontains t "value" with
        | false => simp [hca, hct, hact, hgt, hcv]
        | true => simp [hca, hct, hact, hgt, hcs, hcv, hgs, hrec]
  · simp only [perform_action, pyAsDict, hgt, hgsc, hbm]
    simp [hbm]

/-- Concrete instance: the type action with locator strategy bogus / value
x fails validation, and perform_action on it issues zero driver calls,
under a driver that would time out any lookup. -/
theorem bogus_strategy_rejected_before_driver_witness :
    validateActionE (.dict c8dict) = .ok false ∧
      (perform_action (fun _ _ => LookupResult.timeout) (.dict c8dict)).2 = [] :=
  bogus_strategy_rejected_before_driver (fun _ _ => LookupResult.timeout)
    c8dict c8target (.str "bogus") rfl rfl (by decide)
